import Mathlib

/-!
# posting: request pipeline and pagination

A shallow embedding of `poster.go` (`CreatePost`, `GetPosts`, `getPageNum`) and of the
`POST /posts` route built in `main.go`.

Conventions of the embedding.

* Go `int` is the 64-bit two's-complement integer (a 64-bit platform); a value is an
  `Int` and every arithmetic result is reduced into the signed range by `wrapInt`.
* Handlers are state transformers on a `World`: the external state (document store and
  media host), the `http.ResponseWriter`, and the trace of calls made to collaborators.
* Collaborators that live outside `poster.go` are function-valued fields (`Env`, `Poster`).
-/

namespace Posting

/-! ## Go `int` -/

/-- Smallest value of a 64-bit Go `int` is `-intBound`, the largest is `intBound - 1`. -/
def intBound : Int := 9223372036854775808

/-- Reduction of a mathematical integer to the 64-bit two's-complement value Go computes. -/
def wrapInt (x : Int) : Int := (x + intBound) % (2 * intBound) - intBound

/-- Go `a + b` on `int`. -/
def addInt (a b : Int) : Int := wrapInt (a + b)

/-- Go `a - b` on `int`. -/
def subInt (a b : Int) : Int := wrapInt (a - b)

/-- Go `a * b` on `int`. -/
def mulInt (a b : Int) : Int := wrapInt (a * b)

/-- Membership in the range of a Go `int`. -/
def InIntRange (x : Int) : Prop := -intBound ≤ x ∧ x < intBound

instance (x : Int) : Decidable (InIntRange x) := by
  unfold InIntRange
  infer_instance

/-! ## `strconv.Atoi` -/

/-- Go `error` values are represented by their text. -/
abbrev GoError := String

deriving instance DecidableEq for Except

/-- Value of an ASCII decimal digit, `none` for every other character. -/
def digitVal (c : Char) : Option Nat :=
  if 48 ≤ c.toNat ∧ c.toNat ≤ 57 then some (c.toNat - 48) else none

/-- Text of `strconv.ErrSyntax`. -/
def ErrSyntax : GoError := "invalid syntax"

/-- Text of `strconv.ErrRange`. -/
def ErrRange : GoError := "value out of range"

/-- Largest `uint64`. -/
def maxUint64 : Nat := 18446744073709551615

/-- Digit loop of `strconv.ParseUint(s, 10, 64)`: base-10 accumulation that stops with a
syntax error at the first non-digit and with a range error as soon as the value leaves
`uint64`. -/
def parseUint : Nat → List Char → Except GoError Nat
  | n, [] => .ok n
  | n, c :: cs =>
    match digitVal c with
    | none => .error ErrSyntax
    | some d =>
      if maxUint64 / 10 + 1 ≤ n then .error ErrRange
      else if maxUint64 < n * 10 + d then .error ErrRange
      else parseUint (n * 10 + d) cs

/-- Unsigned part of `strconv.ParseInt(s, 10, 0)` after the sign has been removed: at
least one digit, and the magnitude has to fit the 64-bit `int`. -/
def parseMagnitude (neg : Bool) (ds : List Char) : Except GoError Int :=
  match ds with
  | [] => .error ErrSyntax
  | d :: ds1 =>
    match parseUint 0 (d :: ds1) with
    | .error e => .error e
    | .ok n =>
      if neg then
        if intBound < (n : Int) then .error ErrRange else .ok (-(n : Int))
      else
        if intBound ≤ (n : Int) then .error ErrRange else .ok (n : Int)

/-- Model of `strconv.Atoi` for a 64-bit `int`: an optional sign, then one or more decimal
digits, with a range error when the value does not fit. The error is the text of the
`NumError`'s `Err` field. -/
def Atoi (s : String) : Except GoError Int :=
  match s.toList with
  | [] => .error ErrSyntax
  | c :: rest =>
    if c = '-' then parseMagnitude true rest
    else if c = '+' then parseMagnitude false rest
    else parseMagnitude false (c :: rest)

/-! ## Requests -/

/-- Result of `url.Values`: keys with their value lists, as `r.URL.Query()` returns them. -/
abbrev Values := List (String × List String)

/-- Parsed multipart form, as left in `r.MultipartForm`: text fields and file parts. -/
structure Form where
  value : Values
  file : List (String × List (String × String))
deriving DecidableEq

/-- The parts of `http.Request` the handlers look at. -/
structure Request where
  query : Values
  header : List (String × String)
  body : String
  bodyLimit : Option Int
  MultipartForm : Option Form
deriving DecidableEq

/-- Go map index `m[key]` with the comma-ok result. -/
def Values.get (m : Values) (key : String) : Option (List String) := m.lookup key

/-- Page number requested through the `page` URL query parameter; `0` when the parameter
is not present, not an integer, or negative. -/
def getPageNum (r : Request) : Int :=
  match Values.get r.query "page" with
  | some page =>
    match page with
    | [] => 0
    | v :: _ =>
      match Atoi v with
      | .ok p => if p < 0 then 0 else p
      | .error _ => 0
  | none => 0

/-- Request for `GET /posts` with the given query values. -/
def getRequest (q : Values) : Request := ⟨q, [], "", none, none⟩

/-! ## Posts, media and the template payload -/

/-- Modelled from the spec: `models.Post` media item (the `models` package is not part of
the sources at hand): the attached bytes and content type, and, once uploaded, the hosted
URL. An item without a URL is unresolved. -/
structure MediaItem where
  bytes : String
  contentType : String
  url : Option String
deriving DecidableEq

/-- Modelled from the spec: `models.Post`: a text body and an ordered sequence of media
items. -/
structure Post where
  body : String
  media : List MediaItem
deriving DecidableEq

/-- The anonymous struct handed to the template in `GetPosts`. -/
structure TemplatePayload where
  Posts : List Post
  NextPage : Int
  PrevPage : Int
deriving DecidableEq

/-! ## Responses -/

/-- Response text for a rejected post. -/
def badRequest : String := "🚮 bad post!"

/-- Response text for every upstream failure. -/
def internalErr : String := "🔥 internal error"

/-- Value of `http.StatusOK`. -/
def StatusOK : Nat := 200

/-- Value of `http.StatusBadRequest`. -/
def StatusBadRequest : Nat := 400

/-- Value of `http.StatusInternalServerError`. -/
def StatusInternalServerError : Nat := 500

/-- What an `http.ResponseWriter` has sent: the status code (`none` while the header is
still unwritten) and the body bytes. -/
structure ResponseWriter where
  status : Option Nat
  body : String
deriving DecidableEq

/-- The writer a handler receives for a new request. -/
def ResponseWriter.fresh : ResponseWriter := ⟨none, ""⟩

/-- Method `WriteHeader`: sends the header with the given code. Once the header has been
written, by an earlier `WriteHeader` or by a `Write`, `net/http` ignores the call. -/
def ResponseWriter.WriteHeader (w : ResponseWriter) (code : Nat) : ResponseWriter :=
  match w.status with
  | some _ => w
  | none => ⟨some code, w.body⟩

/-- Method `Write`: an unwritten header goes out first with `StatusOK`, then the data. -/
def ResponseWriter.Write (w : ResponseWriter) (data : String) : ResponseWriter :=
  let w1 := w.WriteHeader StatusOK
  ⟨w1.status, w1.body ++ data⟩

/-- Successive `Write` calls, one per chunk. -/
def ResponseWriter.WriteAll (w : ResponseWriter) (chunks : List String) : ResponseWriter :=
  chunks.foldl ResponseWriter.Write w

/-- Function `http.Error`: `WriteHeader(code)` followed by `Fprintln(w, msg)`. -/
def httpError (w : ResponseWriter) (msg : String) (code : Nat) : ResponseWriter :=
  (w.WriteHeader code).Write (msg ++ "\n")

/-! ## Collaborators, events and the world -/

/-- Severity of a log entry. -/
inductive Level where
  | warn
  | error
deriving DecidableEq

/-- Calls a handler makes to its collaborators, in the order they happen. -/
inductive Event where
  | uploadMedia (post : Post)
  | putPost (post : Post)
  | getPosts (offset limit : Int)
  | execute (payload : TemplatePayload)
  | log (level : Level) (msg : String) (err : GoError)
deriving DecidableEq

/-- Recognises a call to `PutPost`. -/
def Event.isPutPost : Event → Bool
  | .putPost _ => true
  | _ => false

/-- Recognises a call to `UploadMedia`. -/
def Event.isUploadMedia : Event → Bool
  | .uploadMedia _ => true
  | _ => false

/-- Recognises a store read. -/
def Event.isGetPosts : Event → Bool
  | .getPosts _ _ => true
  | _ => false

/-- Recognises a template execution. -/
def Event.isExecute : Event → Bool
  | .execute _ => true
  | _ => false

/-- State threaded through a handler: external state `Ω` (document store and media host),
the response writer and the trace of collaborator calls. -/
structure World (Ω : Type) where
  ext : Ω
  w : ResponseWriter
  trace : List Event

/-- Appends one event to the trace. -/
def World.record {Ω : Type} (s : World Ω) (e : Event) : World Ω :=
  ⟨s.ext, s.w, s.trace ++ [e]⟩

/-- Replaces the external state. -/
def World.setExt {Ω : Type} (s : World Ω) (ω : Ω) : World Ω :=
  ⟨ω, s.w, s.trace⟩

/-- Call of `http.Error` on the world's writer. -/
def World.httpError {Ω : Type} (s : World Ω) (msg : String) (code : Nat) : World Ω :=
  ⟨s.ext, Posting.httpError s.w msg code, s.trace⟩

/-- Interface `models.Uploader`: the media host, `Upload(bytes, contentType)`. -/
structure Uploader (Ω : Type) where
  Upload : Ω → String → String → Ω × Except GoError String

/-- Interface `db.PostsDB`: the two store operations the handlers use. -/
structure PostsDB (Ω : Type) where
  PutPost : Ω → Post → Ω × Option GoError
  GetPosts : Ω → Int → Int → Ω × Except GoError (List Post × Bool)

/-- The parsed template. `Execute` writes its output to the writer it is given as execution
proceeds, in zero or more `Write` calls, and may then fail: when an error stops the
execution, partial results may already have been written. The result lists the chunks
written and the error, if any. -/
structure Template where
  Execute : TemplatePayload → List String × Option GoError

/-- Functions of other packages called by `CreatePost`. -/
structure Env (Ω : Type) where
  ParseMultipartForm : Request → Int → Except GoError Form
  ParsePost : Form → Except GoError Post
  UploadMedia : Uploader Ω → Ω → Post → Ω × Post × Option GoError

/-- Primary class of the blog: the data needed to talk to the collaborators and to render
the HTML template. -/
structure Poster (Ω : Type) where
  Uploader : Uploader Ω
  DB : PostsDB Ω
  PageSize : Int
  PostsTemplate : Template
  bodySizeLimitBytes : Int

/-- An HTTP handler. -/
abbrev Handler (Ω : Type) := World Ω → Request → World Ω

/-! ## Handlers of `poster.go` -/

/-- The payload `GetPosts` builds from the page number and the store's answer. -/
def templatePayload (pageNum : Int) (posts : List Post) (isMore : Bool) : TemplatePayload :=
  let nextPage : Int := if isMore then addInt pageNum 1 else -1
  ⟨posts, nextPage, subInt pageNum 1⟩

/-- Retrieves posts from the store and renders them with the HTML template; the `page`
URL query parameter selects the posts. -/
def GetPosts {Ω : Type} (poster : Poster Ω) : Handler Ω := fun s r =>
  let pageNum := getPageNum r
  let offset := mulInt pageNum poster.PageSize
  let s1 := s.record (.getPosts offset poster.PageSize)
  match poster.DB.GetPosts s1.ext offset poster.PageSize with
  | (ω, .error err) =>
    (((s1.setExt ω).record (.log .error "failed to get posts from db" err)).httpError
      internalErr StatusInternalServerError)
  | (ω, .ok (posts, isMore)) =>
    let payload := templatePayload pageNum posts isMore
    let s2 := (s1.setExt ω).record (.execute payload)
    match poster.PostsTemplate.Execute payload with
    | (chunks, some err) =>
      let s3 : World Ω := ⟨s2.ext, s2.w.WriteAll chunks, s2.trace⟩
      ((s3.record (.log .error err err)).httpError internalErr StatusInternalServerError)
    | (chunks, none) => ⟨s2.ext, s2.w.WriteAll chunks, s2.trace⟩

/-- Creates a new post from the request body and stores it; attached media goes to the
separate host first. -/
def CreatePost {Ω : Type} (env : Env Ω) (poster : Poster Ω) : Handler Ω := fun s r =>
  match env.ParseMultipartForm r poster.bodySizeLimitBytes with
  | .error err =>
    ((s.record (.log .warn "unable to parse form body" err)).httpError
      badRequest StatusBadRequest)
  | .ok form =>
    let r1 : Request := ⟨r.query, r.header, r.body, r.bodyLimit, some form⟩
    match env.ParsePost form with
    | .error err =>
      ((s.record (.log .warn "got bad post" err)).httpError badRequest StatusBadRequest)
    | .ok post =>
      let s1 := s.record (.uploadMedia post)
      match env.UploadMedia poster.Uploader s1.ext post with
      | (ω, _, some err) =>
        (((s1.setExt ω).record (.log .error "failed to upload images to host" err)).httpError
          internalErr StatusInternalServerError)
      | (ω, post1, none) =>
        let s2 := (s1.setExt ω).record (.putPost post1)
        match poster.DB.PutPost s2.ext post1 with
        | (ω1, some err) =>
          (((s2.setExt ω1).record (.log .error "failed to save post to DB" err)).httpError
            internalErr StatusInternalServerError)
        | (ω1, none) => GetPosts poster (s2.setExt ω1) r1

/-! ## Concrete collaborators -/

/-- A template that writes one line per post and the two navigation values, and never
fails. -/
def plainTemplate : Template :=
  ⟨fun p => (p.Posts.map (fun q => q.body ++ "\n") ++
    ["next=" ++ toString p.NextPage ++ " prev=" ++ toString p.PrevPage], none)⟩

/-- Modelled from the spec: `db.PostsDB.GetPosts` (the `db` package is not part of the
sources at hand), over the stored posts in their order: the posts in the window
`[offset, offset + limit)` and whether posts exist beyond that window, found by asking
for `limit + 1` posts, taking a full extra result as the sign of more, and trimming it.
A window with a negative offset or a negative limit is refused. -/
def windowRead (store : List Post) (offset limit : Int) : Except GoError (List Post × Bool) :=
  if offset < 0 ∨ limit < 0 then .error "invalid window"
  else
    let got := (store.drop offset.toNat).take (limit.toNat + 1)
    .ok (got.take limit.toNat, decide (limit.toNat < got.length))

/-- In-memory store over the list of posts, newest first, read through `windowRead`. -/
def memDB : PostsDB (List Post) :=
  ⟨fun store post => (post :: store, none),
   fun store offset limit => (store, windowRead store offset limit)⟩

/-- A media host that is never reached. -/
def noUploader (Ω : Type) : Uploader Ω := ⟨fun ω _ _ => (ω, .error "no host")⟩

/-- Text-only posts numbered from `n` down to `1`. -/
def textPosts : Nat → List Post
  | 0 => []
  | n + 1 => ⟨"post " ++ toString (n + 1), []⟩ :: textPosts n

/-- Poster over the in-memory store. -/
def memPoster (pageSize : Int) : Poster (List Post) :=
  ⟨noUploader (List Post), memDB, pageSize, plainTemplate, 32768⟩

/-- Poster over the in-memory store that renders with the given template, ten posts a
page. -/
def templatePoster (tmpl : Template) : Poster (List Post) :=
  ⟨noUploader (List Post), memDB, 10, tmpl, 32768⟩

/-- World at the start of a request. -/
def World.start {Ω : Type} (ω : Ω) : World Ω := ⟨ω, ResponseWriter.fresh, []⟩

/-- Events a handler added to the trace it started from. -/
def eventsSince {Ω : Type} (before after : World Ω) : List Event :=
  after.trace.drop before.trace.length

/-- Request `GET /posts?page=v`. -/
def pageRequest (v : String) : Request := getRequest [("page", [v])]

/-- Largest page number `strconv.Atoi` lets through. -/
def maxPage : String := "9223372036854775807"

/-- Events `GetPosts` adds, read off the store's answer and the template's outcome. -/
def getPostsEvents {Ω : Type} (poster : Poster Ω) (ω : Ω) (r : Request) : List Event :=
  Event.getPosts (mulInt (getPageNum r) poster.PageSize) poster.PageSize ::
    match poster.DB.GetPosts ω (mulInt (getPageNum r) poster.PageSize) poster.PageSize with
    | (_, .error err) => [Event.log .error "failed to get posts from db" err]
    | (_, .ok (posts, isMore)) =>
      Event.execute (templatePayload (getPageNum r) posts isMore) ::
        match (poster.PostsTemplate.Execute (templatePayload (getPageNum r) posts isMore)).2 with
        | some err => [Event.log .error err err]
        | none => []

/-! ## Media upload and middleware -/

/-- Modelled from the spec: the item loop of `(*models.Post).UploadMedia` (the `models`
package is not part of the sources at hand). The items are uploaded one after another in
their order, each receiving the hosted URL the host returns; the first failed upload stops
the loop with its error and nothing already uploaded is rolled back. -/
def uploadItems {Ω : Type} (up : Uploader Ω) :
    Ω → List MediaItem → Ω × List MediaItem × Option GoError
  | ω, [] => (ω, [], none)
  | ω, m :: rest =>
    match up.Upload ω m.bytes m.contentType with
    | (ω1, .error e) => (ω1, m :: rest, some e)
    | (ω1, .ok url) =>
      match uploadItems up ω1 rest with
      | (ω2, rest1, e) => (ω2, ⟨m.bytes, m.contentType, some url⟩ :: rest1, e)

/-- Modelled from the spec: `(*models.Post).UploadMedia`: uploads the media items of the
post in order and replaces each reference by its hosted URL; it fails as a whole when one
upload fails. -/
def UploadMedia {Ω : Type} (up : Uploader Ω) (ω : Ω) (post : Post) :
    Ω × Post × Option GoError :=
  match uploadItems up ω post.media with
  | (ω1, media, e) => (ω1, ⟨post.body, media⟩, e)

/-- URLs the host returns when it is handed the items one after another, up to the first
failure. -/
def hostURLs {Ω : Type} (up : Uploader Ω) : Ω → List MediaItem → List String
  | _, [] => []
  | ω, m :: rest =>
    match up.Upload ω m.bytes m.contentType with
    | (ω1, .ok url) => url :: hostURLs up ω1 rest
    | (_, .error _) => []

/-- The byte ceiling `main` puts on request bodies, 32 KiB. -/
def bodySizeLimit : Int := 32 * 1024

/-- The request with its body wrapped by a byte ceiling. -/
def limitBody (limit : Int) (r : Request) : Request :=
  ⟨r.query, r.header, r.body, some limit, r.MultipartForm⟩

/-- Modelled from the spec: `middleware.RequestBodyLimitBytes.LimitRequestBody` (the
`middleware` package is not part of the sources at hand): wraps the request body with the
hard byte ceiling and hands the request to the next handler. -/
def LimitRequestBody {Ω : Type} (limit : Int) (next : Handler Ω) : Handler Ω :=
  fun s r => next s (limitBody limit r)

/-- Modelled from the spec: the generic client error the authorization gate answers with;
the spec fixes neither its status code nor its text. -/
structure Rejection where
  code : Nat
  msg : String

/-- Modelled from the spec: `middleware.AuthChecker.CheckAuth`: the check either accepts,
and the request proceeds to the next handler, or rejects, and the request is answered with
the generic client error and logged without detail. -/
def CheckAuth {Ω : Type} (rej : Rejection) (checker : Request → Bool) (next : Handler Ω) :
    Handler Ω :=
  fun s r =>
    if checker r then next s r
    else (s.record (.log .warn "request not authorized" "")).httpError rej.msg rej.code

/-- The middleware chain `main` builds for `POST /posts`, around an inner handler. -/
def postsChain {Ω : Type} (rej : Rejection) (IsRequestAuthorized : Request → Bool)
    (inner : Handler Ω) : Handler Ω :=
  LimitRequestBody bodySizeLimit (CheckAuth rej IsRequestAuthorized inner)

/-- The handler `main` registers for `POST /posts`. -/
def postsRoute {Ω : Type} (rej : Rejection) (IsRequestAuthorized : Request → Bool)
    (env : Env Ω) (poster : Poster Ω) : Handler Ω :=
  postsChain rej IsRequestAuthorized (CreatePost env poster)

/-! ## Concrete site -/

/-- External state of the concrete site: the stored posts and the number of uploads the
host has served. -/
abbrev Site := List Post × Nat

/-- A host that numbers its uploads and refuses empty content. -/
def siteHost : Uploader Site :=
  ⟨fun ω bytes _ =>
    if bytes = "" then (ω, .error "empty upload")
    else ((ω.1, ω.2 + 1), .ok ("https://host/" ++ toString ω.2))⟩

/-- The in-memory store inside the concrete site. -/
def siteDB : PostsDB Site :=
  ⟨fun ω post => (((memDB.PutPost ω.1 post).1, ω.2), (memDB.PutPost ω.1 post).2),
   fun ω offset limit =>
    (((memDB.GetPosts ω.1 offset limit).1, ω.2), (memDB.GetPosts ω.1 offset limit).2)⟩

/-- The concrete site's poster, ten posts a page. -/
def sitePoster : Poster Site := ⟨siteHost, siteDB, 10, plainTemplate, 32768⟩

/-- Functions of `net/http` and `models` with fixed parse results, around the `UploadMedia`
of this development. -/
def cannedEnv (Ω : Type) (form : Except GoError Form) (post : Except GoError Post) : Env Ω :=
  ⟨fun _ _ => form, fun _ => post, UploadMedia⟩

/-- A form with a text field and two file parts. -/
def photoForm : Form :=
  ⟨[("Body", ["hello"])], [("Media", [("cat.png", "PNG1"), ("dog.png", "PNG2")])]⟩

/-- The post candidate of `photoForm`. -/
def photoPost : Post :=
  ⟨"hello", [⟨"PNG1", "image/png", none⟩, ⟨"PNG2", "image/png", none⟩]⟩

/-- A post candidate whose second attachment the host refuses. -/
def brokenPost : Post :=
  ⟨"hello", [⟨"PNG1", "image/png", none⟩, ⟨"", "image/png", none⟩]⟩

/-- Request `POST /posts` with a body. -/
def postRequest (header : List (String × String)) (body : String) : Request :=
  ⟨[], header, body, none, none⟩

/-- A signature check that looks for one fixed header value. -/
def headerCheck (r : Request) : Bool := r.header.lookup "X-Signature" = some "valid"

/-- A template that writes its opening tag and then fails. -/
def brokenTemplate : Template := ⟨fun _ => (["<html>"], some "template: execution failed")⟩

/-- A template that fails before writing anything. -/
def failingTemplate : Template := ⟨fun _ => ([], some "template: execution failed")⟩

/-! ## Arithmetic facts -/

theorem wrapInt_of_inRange (x : Int) (h : InIntRange x) : wrapInt x = x := by
  unfold InIntRange intBound at h
  unfold wrapInt intBound
  omega

theorem parseMagnitude_inRange (neg : Bool) (ds : List Char) (p : Int)
    (h : parseMagnitude neg ds = .ok p) : InIntRange p := by
  unfold parseMagnitude at h
  unfold InIntRange
  split at h
  · cases h
  · split at h
    · cases h
    · split at h
      · split at h
        · cases h
        · injection h with h
          subst h
          unfold intBound at *
          constructor <;> omega
      · split at h
        · cases h
        · injection h with h
          subst h
          unfold intBound at *
          constructor <;> omega

theorem Atoi_inRange (v : String) (p : Int) (h : Atoi v = .ok p) : InIntRange p := by
  unfold Atoi at h
  split at h
  · cases h
  · split at h
    · exact parseMagnitude_inRange _ _ _ h
    · split at h
      · exact parseMagnitude_inRange _ _ _ h
      · exact parseMagnitude_inRange _ _ _ h

theorem getPageNum_nonneg (r : Request) : 0 ≤ getPageNum r := by
  unfold getPageNum
  split
  · split
    · exact le_refl 0
    · split
      · split
        · exact le_refl 0
        · omega
      · exact le_refl 0
  · exact le_refl 0

theorem getPageNum_lt (r : Request) : getPageNum r < intBound := by
  unfold getPageNum
  split
  · split
    · decide
    · split
      · rename_i p hp
        split
        · decide
        · exact (Atoi_inRange _ p hp).2
      · decide
  · decide

theorem subInt_one_of_page (p : Int) (h0 : 0 ≤ p) (h1 : p < intBound) :
    subInt p 1 = p - 1 := by
  unfold subInt
  apply wrapInt_of_inRange
  unfold InIntRange intBound at *
  constructor <;> omega

theorem addInt_one_of_page (p : Int) (h0 : 0 ≤ p) (h1 : p + 1 < intBound) :
    addInt p 1 = p + 1 := by
  unfold addInt
  apply wrapInt_of_inRange
  unfold InIntRange intBound at *
  constructor <;> omega

/-! ## Trace of `GetPosts` -/

theorem eventsSince_append {Ω : Type} (s t : World Ω) (l : List Event)
    (h : t.trace = s.trace ++ l) : eventsSince s t = l := by
  unfold eventsSince
  rw [h]
  exact List.drop_left _ _

theorem GetPosts_trace {Ω : Type} (poster : Poster Ω) (s : World Ω) (r : Request) :
    (GetPosts poster s r).trace = s.trace ++ getPostsEvents poster s.ext r := by
  unfold GetPosts getPostsEvents
  simp only [World.record, World.setExt, World.httpError]
  rcases hdb : poster.DB.GetPosts s.ext (mulInt (getPageNum r) poster.PageSize)
    poster.PageSize with ⟨ω, res⟩
  rcases res with err | ⟨posts, isMore⟩
  · simp
  · rcases hex : poster.PostsTemplate.Execute (templatePayload (getPageNum r) posts isMore)
      with ⟨chunks, oerr⟩
    cases oerr <;> simp [hex]

theorem getPostsEvents_reads {Ω : Type} (poster : Poster Ω) (ω : Ω) (r : Request) :
    (getPostsEvents poster ω r).filter Event.isGetPosts =
      [Event.getPosts (mulInt (getPageNum r) poster.PageSize) poster.PageSize] := by
  unfold getPostsEvents
  rcases hdb : poster.DB.GetPosts ω (mulInt (getPageNum r) poster.PageSize)
    poster.PageSize with ⟨ω1, res⟩
  rcases res with err | ⟨posts, isMore⟩
  · simp [Event.isGetPosts]
  · rcases hex : (poster.PostsTemplate.Execute
      (templatePayload (getPageNum r) posts isMore)).2 with _ | e <;>
      simp [hex, Event.isGetPosts]

theorem getPostsEvents_executes {Ω : Type} (poster : Poster Ω) (ω ω1 : Ω) (r : Request)
    (posts : List Post) (isMore : Bool)
    (h : poster.DB.GetPosts ω (mulInt (getPageNum r) poster.PageSize) poster.PageSize =
      (ω1, .ok (posts, isMore))) :
    (getPostsEvents poster ω r).filter Event.isExecute =
      [Event.execute (templatePayload (getPageNum r) posts isMore)] := by
  unfold getPostsEvents
  rw [h]
  rcases hex : (poster.PostsTemplate.Execute
    (templatePayload (getPageNum r) posts isMore)).2 with _ | e <;>
    simp [hex, Event.isExecute]

theorem getPostsEvents_no_write {Ω : Type} (poster : Poster Ω) (ω : Ω) (r : Request) :
    (getPostsEvents poster ω r).filter Event.isPutPost = [] ∧
      (getPostsEvents poster ω r).filter Event.isUploadMedia = [] := by
  unfold getPostsEvents
  rcases hdb : poster.DB.GetPosts ω (mulInt (getPageNum r) poster.PageSize)
    poster.PageSize with ⟨ω1, res⟩
  rcases res with err | ⟨posts, isMore⟩
  · simp [Event.isPutPost, Event.isUploadMedia]
  · rcases hex : (poster.PostsTemplate.Execute
      (templatePayload (getPageNum r) posts isMore)).2 with _ | e <;>
      simp [hex, Event.isPutPost, Event.isUploadMedia]

/-! ## Page number -/

/-- C1: `getPageNum` returns 0 whenever the `page` query parameter is absent, has an empty
value list, has a first value that `strconv.Atoi` rejects, or has a first value that
parses to a negative integer; in each case the result is the one of `page=0`. -/
theorem getPageNum_defaults_to_zero (r : Request)
    (h : Values.get r.query "page" = none ∨ Values.get r.query "page" = some [] ∨
      (∃ v vs e, Values.get r.query "page" = some (v :: vs) ∧ Atoi v = .error e) ∨
      (∃ v vs p, Values.get r.query "page" = some (v :: vs) ∧ Atoi v = .ok p ∧ p < 0)) :
    getPageNum r = 0 ∧ getPageNum r = getPageNum (getRequest [("page", ["0"])]) := by
  have h0 : getPageNum (getRequest [("page", ["0"])]) = 0 := by decide
  rw [h0, and_self]
  unfold getPageNum
  rcases h with h | h | ⟨v, vs, e, h, ha⟩ | ⟨v, vs, p, h, ha, hp⟩
  · rw [h]
  · rw [h]
  · rw [h]
    simp only [ha]
  · rw [h]
    simp only [ha, hp, if_true]

theorem getPageNum_defaults_to_zero_witness :
    (getPageNum (getRequest []) = 0 ∧
      getPageNum (getRequest [("page", [])]) = 0 ∧
      getPageNum (getRequest [("page", ["abc"])]) = 0 ∧
      getPageNum (getRequest [("page", ["-3"])]) = 0) ∧
    (getPageNum (getRequest [("page", ["-3"])]) =
      getPageNum (getRequest [("page", ["0"])])) :=
  ⟨⟨(getPageNum_defaults_to_zero (getRequest []) (Or.inl (by decide))).1,
    (getPageNum_defaults_to_zero (getRequest [("page", [])])
      (Or.inr (Or.inl (by decide)))).1,
    (getPageNum_defaults_to_zero (getRequest [("page", ["abc"])])
      (Or.inr (Or.inr (Or.inl ⟨"abc", [], ErrSyntax, by decide, by decide⟩)))).1,
    (getPageNum_defaults_to_zero (getRequest [("page", ["-3"])])
      (Or.inr (Or.inr (Or.inr ⟨"-3", [], -3, by decide, by decide, by decide⟩)))).1⟩,
   (getPageNum_defaults_to_zero (getRequest [("page", ["-3"])])
      (Or.inr (Or.inr (Or.inr ⟨"-3", [], -3, by decide, by decide, by decide⟩)))).2⟩

theorem getPageNum_of_parsed (r : Request) (v : String) (vs : List String) (N : Int)
    (h : Values.get r.query "page" = some (v :: vs)) (ha : Atoi v = .ok N) (hN : 0 ≤ N) :
    getPageNum r = N := by
  unfold getPageNum
  rw [h]
  simp only [ha]
  rw [if_neg (by omega)]

/-! ## Pagination window -/

/-- C2, counterexample: for `page=9223372036854775807` and a page size of 10 the store is
read at offset `-10`, which is not page × PageSize. -/
theorem GetPosts_offset_wraps :
    getPageNum (pageRequest maxPage) = 9223372036854775807 ∧
    (eventsSince (World.start (textPosts 25))
        (GetPosts (memPoster 10) (World.start (textPosts 25)) (pageRequest maxPage))).filter
      Event.isGetPosts = [Event.getPosts (-10) 10] ∧
    Event.getPosts (getPageNum (pageRequest maxPage) * (memPoster 10).PageSize)
        (memPoster 10).PageSize ∉
      (GetPosts (memPoster 10) (World.start (textPosts 25)) (pageRequest maxPage)).trace := by
  decide

/-- C2, amended: `GetPosts` reads the store exactly once, with limit `PageSize` and with
the Go `int` product page × PageSize as offset; that offset is the mathematical product
whenever the product lies in the `int` range, and when the first `page` value parses to
a non-negative `N` with `N × PageSize` in range it is `N × PageSize`. -/
theorem GetPosts_reads_store_once {Ω : Type} (poster : Poster Ω) (s : World Ω)
    (r : Request) :
    (eventsSince s (GetPosts poster s r)).filter Event.isGetPosts =
      [Event.getPosts (mulInt (getPageNum r) poster.PageSize) poster.PageSize] ∧
    (InIntRange (getPageNum r * poster.PageSize) →
      mulInt (getPageNum r) poster.PageSize = getPageNum r * poster.PageSize) ∧
    (∀ (v : String) (vs : List String) (N : Int),
      Values.get r.query "page" = some (v :: vs) → Atoi v = .ok N → 0 ≤ N →
      InIntRange (N * poster.PageSize) →
      (eventsSince s (GetPosts poster s r)).filter Event.isGetPosts =
        [Event.getPosts (N * poster.PageSize) poster.PageSize]) := by
  have hev : (eventsSince s (GetPosts poster s r)).filter Event.isGetPosts =
      [Event.getPosts (mulInt (getPageNum r) poster.PageSize) poster.PageSize] := by
    rw [eventsSince_append s _ _ (GetPosts_trace poster s r)]
    exact getPostsEvents_reads poster s.ext r
  refine ⟨hev, fun h => wrapInt_of_inRange _ h, ?_⟩
  intro v vs N hq ha hN hr
  rw [hev, getPageNum_of_parsed r v vs N hq ha hN]
  unfold mulInt
  rw [wrapInt_of_inRange _ hr]

theorem GetPosts_reads_store_once_witness :
    (eventsSince (World.start (textPosts 25))
        (GetPosts (memPoster 10) (World.start (textPosts 25)) (pageRequest "2"))).filter
      Event.isGetPosts = [Event.getPosts (2 * 10) 10] :=
  (GetPosts_reads_store_once (memPoster 10) (World.start (textPosts 25))
    (pageRequest "2")).2.2 "2" [] 2 (by decide) (by decide) (by decide) (by decide)

/-! ## Navigation values -/

theorem GetPosts_executes {Ω : Type} (poster : Poster Ω) (s : World Ω) (r : Request)
    (ω1 : Ω) (posts : List Post) (isMore : Bool)
    (h : poster.DB.GetPosts s.ext (mulInt (getPageNum r) poster.PageSize) poster.PageSize =
      (ω1, .ok (posts, isMore))) :
    (eventsSince s (GetPosts poster s r)).filter Event.isExecute =
      [Event.execute (templatePayload (getPageNum r) posts isMore)] := by
  rw [eventsSince_append s _ _ (GetPosts_trace poster s r)]
  exact getPostsEvents_executes poster s.ext ω1 r posts isMore h

theorem windowRead_more (store : List Post) (offset limit : Int) (posts : List Post)
    (h : windowRead store offset limit = .ok (posts, true)) :
    0 ≤ offset ∧ 0 ≤ limit ∧ offset + limit < (store.length : Int) := by
  unfold windowRead at h
  split at h
  · cases h
  · rename_i hneg
    injection h with h
    simp only [Prod.mk.injEq, decide_eq_true_eq, List.length_take, List.length_drop] at h
    omega

/-- When the store's reads are those of `windowRead` over fewer than 2^63 posts and the
page size is not 0, a read that reports more posts leaves room for page + 1. -/
theorem page_succ_fits_of_more {Ω : Type} (poster : Poster Ω) (contents : Ω → List Post)
    (hread : ∀ ω offset limit,
      (poster.DB.GetPosts ω offset limit).2 = windowRead (contents ω) offset limit)
    (hsize : poster.PageSize ≠ 0) (s : World Ω)
    (hcount : ((contents s.ext).length : Int) < intBound) (r : Request) (ω1 : Ω)
    (posts : List Post)
    (h : poster.DB.GetPosts s.ext (mulInt (getPageNum r) poster.PageSize) poster.PageSize =
      (ω1, .ok (posts, true))) :
    getPageNum r + 1 < intBound := by
  have hw : windowRead (contents s.ext) (mulInt (getPageNum r) poster.PageSize)
      poster.PageSize = .ok (posts, true) := by
    rw [← hread, h]
  obtain ⟨ho, hl, hlen⟩ := windowRead_more _ _ _ _ hw
  have h0 := getPageNum_nonneg r
  have h1 := getPageNum_lt r
  by_contra hnot
  have hp : getPageNum r = 9223372036854775807 := by
    unfold intBound at h1 hnot
    omega
  rw [hp] at ho hlen
  unfold mulInt wrapInt at ho hlen
  unfold intBound at ho hlen hcount
  omega

/-- C3: when the store read succeeds with `(posts, more)`, the payload handed to the
template carries those posts, and its `NextPage` is page + 1 when `more` is true and −1
when `more` is false. The store's reads are those of `windowRead` over fewer than 2^63
posts, and the page size is not 0. -/
theorem GetPosts_next_page {Ω : Type} (poster : Poster Ω) (contents : Ω → List Post)
    (hread : ∀ ω offset limit,
      (poster.DB.GetPosts ω offset limit).2 = windowRead (contents ω) offset limit)
    (hsize : poster.PageSize ≠ 0) (s : World Ω)
    (hcount : ((contents s.ext).length : Int) < intBound) (r : Request) (ω1 : Ω)
    (posts : List Post) (more : Bool)
    (h : poster.DB.GetPosts s.ext (mulInt (getPageNum r) poster.PageSize) poster.PageSize =
      (ω1, .ok (posts, more))) :
    ∃ payload : TemplatePayload,
      (eventsSince s (GetPosts poster s r)).filter Event.isExecute =
        [Event.execute payload] ∧
      payload.Posts = posts ∧
      (more = true → payload.NextPage = getPageNum r + 1) ∧
      (more = false → payload.NextPage = -1) := by
  refine ⟨templatePayload (getPageNum r) posts more,
    GetPosts_executes poster s r ω1 posts more h, rfl, ?_, ?_⟩
  · intro hm
    subst hm
    simp only [templatePayload, if_true]
    exact addInt_one_of_page _ (getPageNum_nonneg r)
      (page_succ_fits_of_more poster contents hread hsize s hcount r ω1 posts h)
  · intro hm
    subst hm
    simp [templatePayload]

theorem GetPosts_next_page_witness :
    (∃ payload : TemplatePayload,
      (eventsSince (World.start (textPosts 25))
        (GetPosts (memPoster 10) (World.start (textPosts 25)) (pageRequest "0"))).filter
          Event.isExecute = [Event.execute payload] ∧
      payload.Posts = (textPosts 25).take 10 ∧ payload.NextPage = 0 + 1) ∧
    (∃ payload : TemplatePayload,
      (eventsSince (World.start (textPosts 25))
        (GetPosts (memPoster 10) (World.start (textPosts 25)) (pageRequest "2"))).filter
          Event.isExecute = [Event.execute payload] ∧
      payload.Posts = textPosts 5 ∧ payload.NextPage = -1) := by
  constructor
  · obtain ⟨payload, hev, hp, hn, _⟩ :=
      GetPosts_next_page (memPoster 10) id (fun _ _ _ => rfl) (by decide)
        (World.start (textPosts 25)) (by decide) (pageRequest "0")
        (textPosts 25) ((textPosts 25).take 10) true (by decide)
    exact ⟨payload, hev, hp, hn rfl⟩
  · obtain ⟨payload, hev, hp, _, hn⟩ :=
      GetPosts_next_page (memPoster 10) id (fun _ _ _ => rfl) (by decide)
        (World.start (textPosts 25)) (by decide) (pageRequest "2")
        (textPosts 25) (textPosts 5) false (by decide)
    exact ⟨payload, hev, hp, hn rfl⟩

/-- C4: when the store read succeeds, the `PrevPage` handed to the template is page − 1,
with no clamping, whatever the `more` flag is; at page 0 it is −1. -/
theorem GetPosts_prev_page {Ω : Type} (poster : Poster Ω) (s : World Ω) (r : Request)
    (ω1 : Ω) (posts : List Post) (more : Bool)
    (h : poster.DB.GetPosts s.ext (mulInt (getPageNum r) poster.PageSize) poster.PageSize =
      (ω1, .ok (posts, more))) :
    ∃ payload : TemplatePayload,
      (eventsSince s (GetPosts poster s r)).filter Event.isExecute =
        [Event.execute payload] ∧
      payload.PrevPage = getPageNum r - 1 ∧
      (getPageNum r = 0 → payload.PrevPage = -1) ∧
      payload.PrevPage = (templatePayload (getPageNum r) posts (not more)).PrevPage := by
  have hp : (templatePayload (getPageNum r) posts more).PrevPage = getPageNum r - 1 :=
    subInt_one_of_page _ (getPageNum_nonneg r) (getPageNum_lt r)
  refine ⟨templatePayload (getPageNum r) posts more,
    GetPosts_executes poster s r ω1 posts more h, hp, ?_, rfl⟩
  intro h0
  rw [hp, h0]
  rfl

theorem GetPosts_prev_page_witness :
    (∃ payload : TemplatePayload,
      (eventsSince (World.start (textPosts 25))
        (GetPosts (memPoster 10) (World.start (textPosts 25)) (pageRequest "0"))).filter
          Event.isExecute = [Event.execute payload] ∧
      payload.PrevPage = -1) ∧
    (∃ payload : TemplatePayload,
      (eventsSince (World.start (textPosts 25))
        (GetPosts (memPoster 10) (World.start (textPosts 25)) (pageRequest "2"))).filter
          Event.isExecute = [Event.execute payload] ∧
      payload.PrevPage = 2 - 1) := by
  constructor
  · obtain ⟨payload, hev, _, hz, _⟩ :=
      GetPosts_prev_page (memPoster 10) (World.start (textPosts 25)) (pageRequest "0")
        (textPosts 25) ((textPosts 25).take 10) true (by decide)
    exact ⟨payload, hev, hz (by decide)⟩
  · obtain ⟨payload, hev, hp, _, _⟩ :=
      GetPosts_prev_page (memPoster 10) (World.start (textPosts 25)) (pageRequest "2")
        (textPosts 25) (textPosts 5) false (by decide)
    exact ⟨payload, hev, hp⟩

/-- C10: when the store read succeeds, in the payload handed to the template
`NextPage < 0` holds exactly when the store reported no more posts beyond the window, and
`PrevPage < 0` holds exactly when the page is 0. The store's reads are those of
`windowRead` over fewer than 2^63 posts, and the page size is not 0. -/
theorem GetPosts_negative_navigation {Ω : Type} (poster : Poster Ω)
    (contents : Ω → List Post)
    (hread : ∀ ω offset limit,
      (poster.DB.GetPosts ω offset limit).2 = windowRead (contents ω) offset limit)
    (hsize : poster.PageSize ≠ 0) (s : World Ω)
    (hcount : ((contents s.ext).length : Int) < intBound) (r : Request) (ω1 : Ω)
    (posts : List Post) (more : Bool)
    (h : poster.DB.GetPosts s.ext (mulInt (getPageNum r) poster.PageSize) poster.PageSize =
      (ω1, .ok (posts, more))) :
    ∃ payload : TemplatePayload,
      (eventsSince s (GetPosts poster s r)).filter Event.isExecute =
        [Event.execute payload] ∧
      (payload.NextPage < 0 ↔ more = false) ∧
      (payload.PrevPage < 0 ↔ getPageNum r = 0) := by
  have hp : (templatePayload (getPageNum r) posts more).PrevPage = getPageNum r - 1 :=
    subInt_one_of_page _ (getPageNum_nonneg r) (getPageNum_lt r)
  have h0 := getPageNum_nonneg r
  refine ⟨templatePayload (getPageNum r) posts more,
    GetPosts_executes poster s r ω1 posts more h, ?_, ?_⟩
  · cases more
    · simp [templatePayload]
    · have hlt := page_succ_fits_of_more poster contents hread hsize s hcount r ω1 posts h
      simp only [templatePayload, if_true]
      rw [addInt_one_of_page _ h0 hlt]
      constructor
      · intro hneg
        omega
      · intro hf
        cases hf
  · rw [hp]
    omega

theorem GetPosts_negative_navigation_witness :
    (∃ payload : TemplatePayload,
      (eventsSince (World.start (textPosts 25))
        (GetPosts (memPoster 10) (World.start (textPosts 25)) (pageRequest "1"))).filter
          Event.isExecute = [Event.execute payload] ∧
      ¬ payload.NextPage < 0 ∧ ¬ payload.PrevPage < 0) ∧
    (∃ payload : TemplatePayload,
      (eventsSince (World.start (textPosts 25))
        (GetPosts (memPoster 10) (World.start (textPosts 25)) (pageRequest "2"))).filter
          Event.isExecute = [Event.execute payload] ∧
      payload.NextPage < 0 ∧ ¬ payload.PrevPage < 0) := by
  constructor
  · obtain ⟨payload, hev, hn, hp⟩ :=
      GetPosts_negative_navigation (memPoster 10) id (fun _ _ _ => rfl) (by decide)
        (World.start (textPosts 25)) (by decide) (pageRequest "1") (textPosts 25)
        (((textPosts 25).drop 10).take 10) true (by decide)
    exact ⟨payload, hev, fun hlt => absurd (hn.1 hlt) (by decide),
      fun hlt => absurd (hp.1 hlt) (by decide)⟩
  · obtain ⟨payload, hev, hn, hp⟩ :=
      GetPosts_negative_navigation (memPoster 10) id (fun _ _ _ => rfl) (by decide)
        (World.start (textPosts 25)) (by decide) (pageRequest "2") (textPosts 25)
        (textPosts 5) false (by decide)
    exact ⟨payload, hev, hn.2 rfl, fun hlt => absurd (hp.1 hlt) (by decide)⟩

/-! ## Media upload -/

theorem uploadItems_urls {Ω : Type} (up : Uploader Ω) :
    ∀ (items : List MediaItem) (ω ω1 : Ω) (out : List MediaItem),
      uploadItems up ω items = (ω1, out, none) →
      out.map MediaItem.url = (hostURLs up ω items).map some ∧
      out.map MediaItem.bytes = items.map MediaItem.bytes ∧
      out.map MediaItem.contentType = items.map MediaItem.contentType ∧
      (hostURLs up ω items).length = items.length := by
  intro items
  induction items with
  | nil =>
    intro ω ω1 out h
    simp only [uploadItems, Prod.mk.injEq] at h
    obtain ⟨_, h2, _⟩ := h
    subst h2
    simp [hostURLs]
  | cons m rest ih =>
    intro ω ω1 out h
    unfold uploadItems at h
    unfold hostURLs
    rcases hup : up.Upload ω m.bytes m.contentType with ⟨ω2, res⟩
    rw [hup] at h
    rcases res with e | url
    · simp at h
    · rcases hrec : uploadItems up ω2 rest with ⟨ω3, rest1, e⟩
      simp only [hrec, Prod.mk.injEq] at h
      obtain ⟨_, h2, h3⟩ := h
      subst h2
      subst h3
      obtain ⟨i1, i2, i3, i4⟩ := ih ω2 ω3 rest1 hrec
      simp [i1, i2, i3, i4]

/-! ## `CreatePost` -/

/-- C7: when `ParseMultipartForm` or `ParsePost` returns an error, `CreatePost` answers
with status 400 and the one bad-request message, and makes no media upload, no `PutPost`,
no store read and no template execution. -/
theorem CreatePost_rejects_bad_form {Ω : Type} (env : Env Ω) (poster : Poster Ω)
    (s : World Ω) (r : Request)
    (h : (∃ err, env.ParseMultipartForm r poster.bodySizeLimitBytes = .error err) ∨
      (∃ form err, env.ParseMultipartForm r poster.bodySizeLimitBytes = .ok form ∧
        env.ParsePost form = .error err)) :
    (CreatePost env poster s r).w = httpError s.w badRequest StatusBadRequest ∧
    (s.w = ResponseWriter.fresh →
      (CreatePost env poster s r).w = ⟨some 400, "🚮 bad post!\n"⟩) ∧
    (CreatePost env poster s r).ext = s.ext ∧
    (eventsSince s (CreatePost env poster s r)).filter Event.isUploadMedia = [] ∧
    (eventsSince s (CreatePost env poster s r)).filter Event.isPutPost = [] ∧
    (eventsSince s (CreatePost env poster s r)).filter Event.isGetPosts = [] ∧
    (eventsSince s (CreatePost env poster s r)).filter Event.isExecute = [] := by
  have key : ∃ msg err, CreatePost env poster s r =
      ((s.record (.log .warn msg err)).httpError badRequest StatusBadRequest) := by
    rcases h with ⟨err, h⟩ | ⟨form, err, h, hp⟩
    · exact ⟨"unable to parse form body", err, by unfold CreatePost; simp only [h]⟩
    · exact ⟨"got bad post", err, by unfold CreatePost; simp only [h, hp]⟩
  obtain ⟨msg, err, key⟩ := key
  rw [key]
  have hev : eventsSince s ((s.record (.log .warn msg err)).httpError badRequest
      StatusBadRequest) = [Event.log .warn msg err] :=
    eventsSince_append s _ _ rfl
  rw [hev]
  refine ⟨rfl, ?_, rfl, rfl, rfl, rfl, rfl⟩
  intro hw
  simp only [World.httpError, World.record, hw]
  decide

theorem CreatePost_rejects_bad_form_witness :
    (CreatePost (cannedEnv Site (.error "no multipart boundary") (.ok photoPost)) sitePoster
      (World.start (textPosts 2, 0)) (postRequest [] "x")).w = ⟨some 400, "🚮 bad post!\n"⟩ ∧
    (CreatePost (cannedEnv Site (.ok photoForm) (.error "no body")) sitePoster
      (World.start (textPosts 2, 0)) (postRequest [] "x")).w = ⟨some 400, "🚮 bad post!\n"⟩ ∧
    (CreatePost (cannedEnv Site (.ok photoForm) (.error "no body")) sitePoster
      (World.start (textPosts 2, 0)) (postRequest [] "x")).ext = (textPosts 2, 0) :=
  ⟨(CreatePost_rejects_bad_form (cannedEnv Site (.error "no multipart boundary")
      (.ok photoPost)) sitePoster (World.start (textPosts 2, 0)) (postRequest [] "x")
      (Or.inl ⟨"no multipart boundary", rfl⟩)).2.1 rfl,
   (CreatePost_rejects_bad_form (cannedEnv Site (.ok photoForm) (.error "no body"))
      sitePoster (World.start (textPosts 2, 0)) (postRequest [] "x")
      (Or.inr ⟨photoForm, "no body", rfl, rfl⟩)).2.1 rfl,
   (CreatePost_rejects_bad_form (cannedEnv Site (.ok photoForm) (.error "no body"))
      sitePoster (World.start (textPosts 2, 0)) (postRequest [] "x")
      (Or.inr ⟨photoForm, "no body", rfl, rfl⟩)).2.2.1⟩

/-- C5: when `UploadMedia` returns an error, `CreatePost` never calls `PutPost`, does not
run `GetPosts` (no store read, no template execution), and answers with status 500 and
the internal-error message, not with the 400 bad-request response. -/
theorem CreatePost_upload_failure {Ω : Type} (env : Env Ω) (poster : Poster Ω)
    (s : World Ω) (r : Request) (form : Form) (post post1 : Post) (ω : Ω) (err : GoError)
    (hf : env.ParseMultipartForm r poster.bodySizeLimitBytes = .ok form)
    (hp : env.ParsePost form = .ok post)
    (hu : env.UploadMedia poster.Uploader s.ext post = (ω, post1, some err)) :
    eventsSince s (CreatePost env poster s r) =
      [Event.uploadMedia post, Event.log .error "failed to upload images to host" err] ∧
    (eventsSince s (CreatePost env poster s r)).filter Event.isPutPost = [] ∧
    (eventsSince s (CreatePost env poster s r)).filter Event.isGetPosts = [] ∧
    (eventsSince s (CreatePost env poster s r)).filter Event.isExecute = [] ∧
    (CreatePost env poster s r).ext = ω ∧
    (CreatePost env poster s r).w = httpError s.w internalErr StatusInternalServerError ∧
    (s.w = ResponseWriter.fresh →
      (CreatePost env poster s r).w = ⟨some 500, "🔥 internal error\n"⟩ ∧
      (CreatePost env poster s r).w ≠ httpError s.w badRequest StatusBadRequest) := by
  have key : CreatePost env poster s r =
      ((((s.record (.uploadMedia post)).setExt ω).record
        (.log .error "failed to upload images to host" err)).httpError
          internalErr StatusInternalServerError) := by
    unfold CreatePost
    simp only [hf, hp, World.record, hu]
  rw [key]
  have hev : eventsSince s ((((s.record (.uploadMedia post)).setExt ω).record
        (.log .error "failed to upload images to host" err)).httpError
          internalErr StatusInternalServerError) =
      [Event.uploadMedia post, Event.log .error "failed to upload images to host" err] :=
    eventsSince_append s _ _ (by simp [World.record, World.setExt, World.httpError])
  rw [hev]
  refine ⟨rfl, rfl, rfl, rfl, rfl, rfl, ?_⟩
  intro hw
  simp only [World.httpError, World.record, World.setExt, hw]
  decide

theorem CreatePost_upload_failure_witness :
    eventsSince (World.start (textPosts 2, 0))
      (CreatePost (cannedEnv Site (.ok photoForm) (.ok brokenPost)) sitePoster
        (World.start (textPosts 2, 0)) (postRequest [] "x")) =
      [Event.uploadMedia brokenPost,
        Event.log .error "failed to upload images to host" "empty upload"] ∧
    (CreatePost (cannedEnv Site (.ok photoForm) (.ok brokenPost)) sitePoster
        (World.start (textPosts 2, 0)) (postRequest [] "x")).ext = (textPosts 2, 1) ∧
    (CreatePost (cannedEnv Site (.ok photoForm) (.ok brokenPost)) sitePoster
        (World.start (textPosts 2, 0)) (postRequest [] "x")).w =
      ⟨some 500, "🔥 internal error\n"⟩ :=
  have h := CreatePost_upload_failure (cannedEnv Site (.ok photoForm) (.ok brokenPost))
    sitePoster (World.start (textPosts 2, 0)) (postRequest [] "x") photoForm brokenPost
    ⟨"hello", [⟨"PNG1", "image/png", some "https://host/0"⟩, ⟨"", "image/png", none⟩]⟩
    (textPosts 2, 1) "empty upload" rfl rfl (by decide)
  ⟨h.1, h.2.2.2.2.1, (h.2.2.2.2.2.2 rfl).1⟩

theorem UploadMedia_urls {Ω : Type} (up : Uploader Ω) (ω ω1 : Ω) (post post1 : Post)
    (h : UploadMedia up ω post = (ω1, post1, none)) :
    post1.body = post.body ∧
    post1.media.map MediaItem.url = (hostURLs up ω post.media).map some ∧
    (hostURLs up ω post.media).length = post.media.length ∧
    post1.media.map MediaItem.bytes = post.media.map MediaItem.bytes := by
  unfold UploadMedia at h
  rcases hrec : uploadItems up ω post.media with ⟨ω2, media, e⟩
  simp only [hrec, Prod.mk.injEq] at h
  obtain ⟨h1, h2, h3⟩ := h
  subst h1
  subst h2
  subst h3
  obtain ⟨i1, i2, _, i4⟩ := uploadItems_urls up post.media ω ω2 media hrec
  exact ⟨rfl, i1, i4, i2⟩

/-- C6: when the multipart form parses, `ParsePost` succeeds and all media uploads
succeed, `CreatePost` calls `PutPost` exactly once, after `UploadMedia`, on the post as
`UploadMedia` left it; that post has the candidate's text and attachments and carries
the URLs the host returned, one per attachment, in attachment order. -/
theorem CreatePost_persists_uploaded_post {Ω : Type}
    (parseForm : Request → Int → Except GoError Form) (parsePost : Form → Except GoError Post)
    (poster : Poster Ω) (s : World Ω) (r : Request) (form : Form) (post post1 : Post) (ω : Ω)
    (hf : parseForm r poster.bodySizeLimitBytes = .ok form)
    (hp : parsePost form = .ok post)
    (hu : UploadMedia poster.Uploader s.ext post = (ω, post1, none)) :
    (∃ rest, eventsSince s (CreatePost ⟨parseForm, parsePost, UploadMedia⟩ poster s r) =
        Event.uploadMedia post :: Event.putPost post1 :: rest ∧
      rest.filter Event.isPutPost = [] ∧ rest.filter Event.isUploadMedia = []) ∧
    (eventsSince s (CreatePost ⟨parseForm, parsePost, UploadMedia⟩ poster s r)).filter
      Event.isPutPost = [Event.putPost post1] ∧
    post1.body = post.body ∧
    post1.media.map MediaItem.url = (hostURLs poster.Uploader s.ext post.media).map some ∧
    (hostURLs poster.Uploader s.ext post.media).length = post.media.length ∧
    post1.media.map MediaItem.bytes = post.media.map MediaItem.bytes := by
  have key : ∃ rest, eventsSince s (CreatePost ⟨parseForm, parsePost, UploadMedia⟩ poster s r) =
        Event.uploadMedia post :: Event.putPost post1 :: rest ∧
      rest.filter Event.isPutPost = [] ∧ rest.filter Event.isUploadMedia = [] := by
    rcases hput : poster.DB.PutPost ω post1 with ⟨ω1, oerr⟩
    rcases oerr with _ | err
    · refine ⟨getPostsEvents poster ω1 ⟨r.query, r.header, r.body, r.bodyLimit, some form⟩,
        ?_, (getPostsEvents_no_write poster ω1 _).1, (getPostsEvents_no_write poster ω1 _).2⟩
      apply eventsSince_append
      unfold CreatePost
      simp only [hf, hp, World.record, World.setExt, hu, hput]
      rw [GetPosts_trace]
      simp
    · refine ⟨[Event.log .error "failed to save post to DB" err], ?_, rfl, rfl⟩
      apply eventsSince_append
      unfold CreatePost
      simp only [hf, hp, World.record, World.setExt, hu, hput, World.httpError]
      simp
  refine ⟨key, ?_, UploadMedia_urls poster.Uploader s.ext ω post post1 hu⟩
  obtain ⟨rest, hev, hr, _⟩ := key
  rw [hev]
  simp [List.filter_cons, Event.isPutPost, hr]

theorem CreatePost_persists_uploaded_post_witness :
    (eventsSince (World.start (textPosts 2, 0))
        (CreatePost (cannedEnv Site (.ok photoForm) (.ok photoPost)) sitePoster
          (World.start (textPosts 2, 0)) (postRequest [] "x"))).filter Event.isPutPost =
      [Event.putPost ⟨"hello", [⟨"PNG1", "image/png", some "https://host/0"⟩,
        ⟨"PNG2", "image/png", some "https://host/1"⟩]⟩] ∧
    hostURLs siteHost (textPosts 2, 0) photoPost.media = ["https://host/0", "https://host/1"] ∧
    (CreatePost (cannedEnv Site (.ok photoForm) (.ok photoPost)) sitePoster
        (World.start (textPosts 2, 0)) (postRequest [] "x")).ext =
      (⟨"hello", [⟨"PNG1", "image/png", some "https://host/0"⟩,
        ⟨"PNG2", "image/png", some "https://host/1"⟩]⟩ :: textPosts 2, 2) :=
  ⟨(CreatePost_persists_uploaded_post (fun _ _ => .ok photoForm) (fun _ => .ok photoPost)
      sitePoster (World.start (textPosts 2, 0)) (postRequest [] "x") photoForm photoPost
      ⟨"hello", [⟨"PNG1", "image/png", some "https://host/0"⟩,
        ⟨"PNG2", "image/png", some "https://host/1"⟩]⟩
      (textPosts 2, 2) rfl rfl (by decide)).2.1,
   by decide, by decide⟩

/-! ## The `POST /posts` route -/

/-- C8: the `POST /posts` handler is the size limiter around the authorization check
around `CreatePost`; when the authorization check rejects the request, the outcome is
the same whatever the inner handler is, so `CreatePost` is not entered: no media upload,
no `PutPost`, and the external state is untouched. -/
theorem postsRoute_rejects_unauthorized {Ω : Type} (rej : Rejection)
    (IsRequestAuthorized : Request → Bool) (env : Env Ω) (poster : Poster Ω)
    (s : World Ω) (r : Request)
    (h : IsRequestAuthorized (limitBody bodySizeLimit r) = false) :
    postsRoute rej IsRequestAuthorized env poster =
      LimitRequestBody bodySizeLimit
        (CheckAuth rej IsRequestAuthorized (CreatePost env poster)) ∧
    (∀ inner : Handler Ω, postsRoute rej IsRequestAuthorized env poster s r =
      postsChain rej IsRequestAuthorized inner s r) ∧
    (eventsSince s (postsRoute rej IsRequestAuthorized env poster s r)).filter
      Event.isUploadMedia = [] ∧
    (eventsSince s (postsRoute rej IsRequestAuthorized env poster s r)).filter
      Event.isPutPost = [] ∧
    (postsRoute rej IsRequestAuthorized env poster s r).ext = s.ext ∧
    (postsRoute rej IsRequestAuthorized env poster s r).w =
      httpError s.w rej.msg rej.code := by
  have key : ∀ inner : Handler Ω, postsChain rej IsRequestAuthorized inner s r =
      (s.record (.log .warn "request not authorized" "")).httpError rej.msg rej.code := by
    intro inner
    simp [postsChain, LimitRequestBody, CheckAuth, h]
  have hev : eventsSince s ((s.record (.log .warn "request not authorized" "")).httpError
      rej.msg rej.code) = [Event.log .warn "request not authorized" ""] :=
    eventsSince_append s _ _ rfl
  refine ⟨rfl, ?_, ?_, ?_, ?_, ?_⟩
  · intro inner
    unfold postsRoute
    rw [key, key]
  all_goals
    unfold postsRoute
    rw [key]
  · rw [hev]
    rfl
  · rw [hev]
    rfl
  · rfl
  · rfl

theorem postsRoute_rejects_unauthorized_witness :
    (postsRoute ⟨400, "bad request"⟩ headerCheck
        (cannedEnv Site (.ok photoForm) (.ok photoPost)) sitePoster
        (World.start (textPosts 2, 0)) (postRequest [("X-Signature", "forged")] "x")).ext =
      (textPosts 2, 0) ∧
    (eventsSince (World.start (textPosts 2, 0))
      (postsRoute ⟨400, "bad request"⟩ headerCheck
        (cannedEnv Site (.ok photoForm) (.ok photoPost)) sitePoster
        (World.start (textPosts 2, 0))
        (postRequest [("X-Signature", "forged")] "x"))).filter Event.isUploadMedia = [] :=
  have h := postsRoute_rejects_unauthorized ⟨400, "bad request"⟩ headerCheck
    (cannedEnv Site (.ok photoForm) (.ok photoPost)) sitePoster
    (World.start (textPosts 2, 0)) (postRequest [("X-Signature", "forged")] "x")
    (by decide)
  ⟨h.2.2.2.2.1, h.2.2.1⟩

/-! ## Failure responses -/

theorem GetPosts_read_failure {Ω : Type} (poster : Poster Ω) (s : World Ω) (r : Request)
    (ω1 : Ω) (err : GoError)
    (h : poster.DB.GetPosts s.ext (mulInt (getPageNum r) poster.PageSize) poster.PageSize =
      (ω1, .error err)) :
    (GetPosts poster s r).w = httpError s.w internalErr StatusInternalServerError := by
  unfold GetPosts
  simp only [World.record, h]
  rfl

theorem GetPosts_template_failure {Ω : Type} (poster : Poster Ω) (s : World Ω)
    (r : Request) (ω1 : Ω) (posts : List Post) (more : Bool) (chunks : List String)
    (err : GoError)
    (h : poster.DB.GetPosts s.ext (mulInt (getPageNum r) poster.PageSize) poster.PageSize =
      (ω1, .ok (posts, more)))
    (hx : poster.PostsTemplate.Execute (templatePayload (getPageNum r) posts more) =
      (chunks, some err)) :
    (GetPosts poster s r).w =
      httpError (s.w.WriteAll chunks) internalErr StatusInternalServerError := by
  unfold GetPosts
  simp only [World.record, h, hx]
  rfl

theorem CreatePost_write_failure {Ω : Type} (env : Env Ω) (poster : Poster Ω)
    (s : World Ω) (r : Request) (form : Form) (post post1 : Post) (ω ω1 : Ω) (err : GoError)
    (hf : env.ParseMultipartForm r poster.bodySizeLimitBytes = .ok form)
    (hp : env.ParsePost form = .ok post)
    (hu : env.UploadMedia poster.Uploader s.ext post = (ω, post1, none))
    (hw : poster.DB.PutPost ω post1 = (ω1, some err)) :
    (CreatePost env poster s r).w = httpError s.w internalErr StatusInternalServerError := by
  unfold CreatePost
  simp only [hf, hp, World.record, World.setExt, hu, hw]
  rfl

/-- C9, failing input: a template that writes its opening tag and then fails leaves the
response at status 200 with the internal-error text appended to the partial output, while
the same error raised before any output gives status 500 and the bare message. -/
theorem GetPosts_template_failure_after_output :
    (GetPosts (templatePoster brokenTemplate) (World.start [])
      (getRequest [])).w = ⟨some 200, "<html>🔥 internal error\n"⟩ ∧
    (GetPosts (templatePoster failingTemplate) (World.start [])
      (getRequest [])).w = ⟨some 500, "🔥 internal error\n"⟩ ∧
    (brokenTemplate.Execute ⟨[], -1, -1⟩).2 = (failingTemplate.Execute ⟨[], -1, -1⟩).2 := by
  decide

end Posting
